import Mathlib

/-!
Verification of the notification core of `bilibili-comment-cleaning`
(`src/http/notify.rs` and `src/screens/main/notify_viewer.rs`).

The Rust code is shallowly embedded: `serde_json::Value` becomes `JVal`,
`HashMap<u64, Notify>` becomes an association list with replacing insert,
the HTTP layer becomes an explicit "server" function from requests to
scripted responses, and each `loop` becomes a step function iterated on
explicit fuel (a run that exhausts its fuel yields `.diverge`).  A Rust
`panic!` (e.g. `Option::unwrap` on `None`) is a distinct outcome
constructor `.panic`, kept apart from the `Result::Err` path `.err`.
-/

set_option autoImplicit false

namespace BiliClean

/-- Model of `serde_json::Value`.  JSON numbers are modelled as integers
(`as_u64` / `as_i64` succeed exactly on the corresponding ranges); the
floating-point number case, which none of the scripted fields use, is not
modelled. -/
inductive JVal where
  | null
  | bool (b : Bool)
  | num (n : Int)
  | str (s : String)
  | arr (xs : List JVal)
  | obj (fields : List (String × JVal))

namespace JVal

/-- Field lookup in an object's field list, first match wins
(mirrors `serde_json::Map::get` for the scripted objects, whose keys are
distinct). -/
def lookupField (k : String) : List (String × JVal) → JVal
  | [] => .null
  | (k', v) :: rest => if k' = k then v else lookupField k rest

/-- `value["k"]`: `serde_json`'s `Index<&str>` returns `Null` when the value
is not an object or the key is absent. -/
def idx (v : JVal) (k : String) : JVal :=
  match v with
  | .obj fields => lookupField k fields
  | _ => .null

/-- `Value::is_null`. -/
def isNull : JVal → Bool
  | .null => true
  | _ => false

/-- `Value::as_array`. -/
def asArray : JVal → Option (List JVal)
  | .arr xs => some xs
  | _ => none

/-- `Value::as_bool`. -/
def asBool : JVal → Option Bool
  | .bool b => some b
  | _ => none

/-- `Value::as_u64`: succeeds exactly on integers in `[0, 2^64)`. -/
def asU64 : JVal → Option Nat
  | .num n => if 0 ≤ n ∧ n < 2 ^ 64 then some n.toNat else none
  | _ => none

/-- `Value::as_i64`: succeeds exactly on integers in `[-2^63, 2^63)`. -/
def asI64 : JVal → Option Int
  | .num n => if -(2 ^ 63) ≤ n ∧ n < 2 ^ 63 then some n else none
  | _ => none

/-- Compact rendering, standing in for `serde_json`'s `Display` (string
escaping is not modelled; error messages carry the rendered body opaquely). -/
def render : JVal → String
  | .null => "null"
  | .bool true => "true"
  | .bool false => "false"
  | .num n => toString n
  | .str s => "\"" ++ s ++ "\""
  | .arr xs => "[" ++ String.intercalate "," (xs.attach.map (fun x => x.1.render)) ++ "]"
  | .obj fields =>
      "\x7b" ++
        String.intercalate ","
          (fields.attach.map (fun f => "\"" ++ f.1.1 ++ "\":" ++ f.1.2.render)) ++
      "\x7d"
decreasing_by
  · have h := List.sizeOf_lt_of_mem x.2
    simp only [JVal.arr.sizeOf_spec]
    omega
  · obtain ⟨⟨k, v⟩, hmem⟩ := f
    have h := List.sizeOf_lt_of_mem hmem
    simp only [Prod.mk.sizeOf_spec] at h
    simp only [JVal.obj.sizeOf_spec]
    omega

end JVal

/-- The outcome of running a piece of Rust code: `ok`/`err` are the two
`Result` constructors, `panic` is an aborting `unwrap`/panic, and `diverge`
marks fuel exhaustion of a loop. -/
inductive POutcome (α : Type) where
  | ok (a : α)
  | err (e : String)
  | panic (msg : String)
  | diverge
deriving DecidableEq

namespace POutcome

def isOk {α : Type} : POutcome α → Bool
  | .ok _ => true
  | _ => false

def isErr {α : Type} : POutcome α → Bool
  | .err _ => true
  | _ => false

def isPanic {α : Type} : POutcome α → Bool
  | .panic _ => true
  | _ => false

end POutcome

/-- `struct Notify` from `src/http/notify.rs` (`tp: u8` as a `Nat` that the
constructors are fed with values below 256; `system_notify_api:
Option<u8>`). -/
structure Notify where
  tp : Nat
  is_selected : Bool
  system_notify_api : Option Nat
deriving DecidableEq

namespace Notify

/-- `Notify::new`. -/
def new (tp : Nat) : Notify :=
  { tp := tp, is_selected := false, system_notify_api := none }

/-- `Notify::new_system_notify`. -/
def new_system_notify (tp : Nat) (api_type : Nat) : Notify :=
  { tp := tp, is_selected := false, system_notify_api := some api_type }

end Notify

/-- `HashMap<u64, Notify>` modelled as an association list whose `insert`
replaces the binding of an existing key in place. -/
abbrev AList : Type := List (Nat × Notify)

/-- `HashMap::insert` (replacing). -/
def insertA (k : Nat) (v : Notify) : AList → AList
  | [] => [(k, v)]
  | (k', v') :: rest => if k' = k then (k, v) :: rest else (k', v') :: insertA k v rest

/-- `HashMap::get` / lookup by key. -/
def lookupA : AList → Nat → Option Notify
  | [], _ => none
  | (k', v) :: rest, k => if k' = k then some v else lookupA rest k

/-- `collect::<HashMap<_,_>>()` over an iterator of pairs: fold `insert`
over the pairs in order, starting from the empty map (later pairs
overwrite earlier ones on key collision). -/
def collectList (l : List (Nat × Notify)) : AList :=
  l.foldl (fun m kv => insertA kv.1 kv.2 m) ([] : AList)

/-- The value attached to the *last* occurrence of key `k` in a pair list
(what `collect` into a `HashMap` keeps on collision). -/
def lastVal : List (Nat × Notify) → Nat → Option Notify
  | [], _ => none
  | kv :: rest, k =>
      match lastVal rest k with
      | some v => some v
      | none => if kv.1 = k then some kv.2 else none

/-- First-some choice on options (`Option::or`). -/
def oor {α : Type} : Option α → Option α → Option α
  | some a, _ => some a
  | none, b => b

/-! ## Deletion (`Notify::remove`) -/

/-- A single deletion POST, as `Notify::remove` issues it: either the
system-notify JSON endpoint or the generic form-encoded endpoint. -/
inductive RemoveReq where
  | systemJson (url : String) (payload : JVal)
  | formPost (url : String) (fields : List (String × String))

/-- The transport's answer to one deletion POST: `sendErr` is a failure of
`send().await` itself; otherwise a response with a 2xx flag and a body that
either decodes as JSON (`some`) or not (`none`). -/
inductive HttpResult where
  | sendErr (e : String)
  | response (ok2xx : Bool) (body : Option JVal)

/-- The request `Notify::remove` builds for a record: lines 36-39 (system
JSON payload, `api_type == 0` puts the id in `ids`, otherwise in
`station_ids`) and lines 66-77 (generic form POST) of `notify.rs`.  The
generic URL keeps the source literal's embedded newline and indent. -/
def removeRequest (n : Notify) (id : Nat) (csrf : String) : RemoveReq :=
  match n.system_notify_api with
  | some api_type =>
      .systemJson
        ("https://message.bilibili.com/x/sys-msg/del_notify_list?build=8140300&mobi_app=android&csrf=" ++ csrf)
        (if api_type = 0 then
          JVal.obj [("csrf", .str csrf), ("ids", .arr [.num id]), ("station_ids", .arr []),
                    ("type", .num n.tp), ("build", .num 8140300), ("mobi_app", .str "android")]
        else
          JVal.obj [("csrf", .str csrf), ("ids", .arr []), ("station_ids", .arr [.num id]),
                    ("type", .num n.tp), ("build", .num 8140300), ("mobi_app", .str "android")])
  | none =>
      .formPost "\n    https://api.bilibili.com/x/msgfeed/del"
        [("tp", toString n.tp), ("id", toString id), ("build", toString 0),
         ("mobi_app", "web"), ("csrf_token", csrf), ("csrf", csrf)]

/-- `Notify::remove` (`notify.rs:33-97`), given the transport's scripted
answer.  Returns the request it issued together with the outcome.  The
system branch never calls `error_for_status` and unwraps
`json_res["code"].as_i64()` (line 52); the generic branch checks the status
(line 80) and turns a missing `code` into an `Err` (line 85). -/
def Notify.remove (n : Notify) (id : Nat) (csrf : String)
    (server : RemoveReq → HttpResult) : RemoveReq × POutcome Nat :=
  let req := removeRequest n id csrf
  match n.system_notify_api with
  | some _ =>
      (req,
        match server req with
        | .sendErr e => .err e
        | .response _ body =>
            match body with
            | none => .err "error decoding response body"
            | some json_res =>
                match (json_res.idx "code").asI64 with
                | none => .panic "called Option::unwrap on a None value"
                | some c =>
                    if c = 0 then .ok id
                    else .err ("Can't remove the system notify. Response json: " ++ json_res.render))
  | none =>
      (req,
        match server req with
        | .sendErr e => .err e
        | .response ok2xx body =>
            if ok2xx = false then .err "HTTP status error"
            else
              match body with
              | none => .err "error decoding response body"
              | some json_res =>
                  match (json_res.idx "code").asI64 with
                  | none => .err "Remove Notify: Parse json res code failed"
                  | some c =>
                      if c = 0 then .ok id
                      else .err ("Can't remove notify. Response json: " ++ json_res.render))

/-! ## Fetch (the four feed pagers and the aggregator) -/

/-- The GET requests the pagers issue, with the cursor parameters that the
code splices into the query string.  The fixed query parts of the URLs
(including the csrf token, which only enters the query string) are folded
into the constructor; `get_json` (in `src/http/utility.rs`, outside the
sources in scope) is abstracted into the scripted server below. -/
inductive FetchReq where
  | likedSeed
  | likedPage (id : Nat) (like_time : Nat)
  | atSeed
  | atPage (id : Nat) (at_time : Nat)
  | replySeed
  | replyPage (id : Nat) (reply_time : Nat)
  | sysPrimary
  | sysSecondary
  | sysPage (cursor : Nat)
deriving DecidableEq

/-- A scripted transport: what `get_json` yields for each request.
`Except.error` is a transport or body-decode failure (which `get_json`
surfaces as `Err` and the pagers propagate with `?`). -/
def FetchServer : Type := FetchReq → Except String JVal

/-- One loop iteration either finishes with an outcome or continues with a
new loop state. -/
inductive StepRes (σ : Type) where
  | done (r : POutcome AList)
  | next (s : σ)

/-- Iterate a loop body on fuel (structural recursion, so concrete runs
evaluate definitionally). -/
def runLoop {σ : Type} (step : σ → StepRes σ) : σ → Nat → POutcome AList
  | _, 0 => .diverge
  | s, fuel + 1 =>
      match step s with
      | .done r => r
      | .next s2 => runLoop step s2 fuel

/-- Same, additionally recording the requests each iteration issued. -/
def runLoopTr {σ : Type} (step : σ → List FetchReq × StepRes σ) :
    σ → Nat → List FetchReq × POutcome AList
  | _, 0 => ([], .diverge)
  | s, fuel + 1 =>
      match step s with
      | (reqs, .done r) => (reqs, r)
      | (reqs, .next s2) =>
          let p := runLoopTr step s2 fuel
          (reqs ++ p.1, p.2)

/-- The `for i in notifys.as_array().unwrap()` body shared by the three
msgfeed pagers: unwrap each item's `id` (panicking on a non-u64) and insert
`Notify::new(tp)`. -/
def insertNotifyItems (tp : Nat) : List JVal → AList → POutcome AList
  | [], h => .ok h
  | i :: rest, h =>
      match (i.idx "id").asU64 with
      | none => .panic "called Option::unwrap on a None value"
      | some notify_id => insertNotifyItems tp rest (insertA notify_id (Notify.new tp) h)

/-- Loop state of the three msgfeed pagers: `(queryid, last_time, h)`. -/
def MsgSt : Type := Option Nat × Option Nat × AList

/-- Tail of one msgfeed iteration, after the page's item array and its last
element have been extracted: run the insert loop, then unwrap `is_end`
(from the given cursor object path) and either break with `Ok(h)` or
continue with the updated cursor pair. -/
def msgfeedTail (tp : Nat) (cursorObj : JVal) (arr : List JVal)
    (queryid2 last_time2 : Option Nat) (h : AList) : StepRes MsgSt :=
  match insertNotifyItems tp arr h with
  | .ok h2 =>
      match (cursorObj.idx "is_end").asBool with
      | none => .done (.panic "called Option::unwrap on a None value")
      | some true => .done (.ok h2)
      | some false => .next (queryid2, last_time2, h2)
  | out => .done out

/-- One iteration of `fetch_liked_notify`'s loop (`notify.rs:115-150`).
Items live at `data.total.items`, the cursor at `data.total.cursor`, the
echoed timestamp field is `like_time`, and records carry `tp = 0`. -/
def likedStep (server : FetchServer) : MsgSt → StepRes MsgSt
  | (none, none, h) =>
      match server .likedSeed with
      | .error e => .done (.err e)
      | .ok json =>
          match (((json.idx "data").idx "total").idx "items").asArray with
          | none => .done (.panic "called Option::unwrap on a None value")
          | some arr =>
              if arr.isEmpty then .done (.err "没有收到赞的通知。")
              else
                match arr.getLast? with
                | none => .done (.panic "called Option::unwrap on a None value")
                | some lastIt =>
                    msgfeedTail 0 (((json.idx "data").idx "total").idx "cursor") arr
                      (((((json.idx "data").idx "total").idx "cursor").idx "id").asU64)
                      ((lastIt.idx "like_time").asU64) h
  | (some queryid, some last_time, h) =>
      match server (.likedPage queryid last_time) with
      | .error e => .done (.err e)
      | .ok json =>
          match (((json.idx "data").idx "total").idx "items").asArray with
          | none => .done (.panic "called Option::unwrap on a None value")
          | some arr =>
              match arr.getLast? with
              | none => .done (.panic "called Option::unwrap on a None value")
              | some lastIt =>
                  msgfeedTail 0 (((json.idx "data").idx "total").idx "cursor") arr
                    (((((json.idx "data").idx "total").idx "cursor").idx "id").asU64)
                    ((lastIt.idx "like_time").asU64) h
  | (_, _, _) => .done (.panic "called Option::unwrap on a None value")

/-- `Notify::fetch_liked_notify`, over a scripted transport and fuel. -/
def fetchLikedNotify (server : FetchServer) (fuel : Nat) : POutcome AList :=
  runLoop (likedStep server) (none, none, ([] : AList)) fuel

/-- One iteration of `fetch_replyed_notify`'s loop (`notify.rs:155-203`).
Items at `data.items`, cursor at `data.cursor`, timestamp `reply_time`,
`tp = 1`. -/
def replyStep (server : FetchServer) : MsgSt → StepRes MsgSt
  | (none, none, h) =>
      match server .replySeed with
      | .error e => .done (.err e)
      | .ok json =>
          match ((json.idx "data").idx "items").asArray with
          | none => .done (.panic "called Option::unwrap on a None value")
          | some arr =>
              if arr.isEmpty then .done (.err "没有收到评论的通知。")
              else
                match arr.getLast? with
                | none => .done (.panic "called Option::unwrap on a None value")
                | some lastIt =>
                    msgfeedTail 1 ((json.idx "data").idx "cursor") arr
                      ((((json.idx "data").idx "cursor").idx "id").asU64)
                      ((lastIt.idx "reply_time").asU64) h
  | (some queryid, some last_time, h) =>
      match server (.replyPage queryid last_time) with
      | .error e => .done (.err e)
      | .ok json =>
          match ((json.idx "data").idx "items").asArray with
          | none => .done (.panic "called Option::unwrap on a None value")
          | some arr =>
              match arr.getLast? with
              | none => .done (.panic "called Option::unwrap on a None value")
              | some lastIt =>
                  msgfeedTail 1 ((json.idx "data").idx "cursor") arr
                    ((((json.idx "data").idx "cursor").idx "id").asU64)
                    ((lastIt.idx "reply_time").asU64) h
  | (_, _, _) => .done (.panic "called Option::unwrap on a None value")

/-- `Notify::fetch_replyed_notify`. -/
def fetchReplyedNotify (server : FetchServer) (fuel : Nat) : POutcome AList :=
  runLoop (replyStep server) (none, none, ([] : AList)) fuel

/-- One iteration of `fetch_ated_notify`'s loop (`notify.rs:206-253`).
Items at `data.items`, cursor at `data.cursor`, timestamp `at_time`,
`tp = 2`. -/
def atStep (server : FetchServer) : MsgSt → StepRes MsgSt
  | (none, none, h) =>
      match server .atSeed with
      | .error e => .done (.err e)
      | .ok json =>
          match ((json.idx "data").idx "items").asArray with
          | none => .done (.panic "called Option::unwrap on a None value")
          | some arr =>
              if arr.isEmpty then .done (.err "没有被At的通知。")
              else
                match arr.getLast? with
                | none => .done (.panic "called Option::unwrap on a None value")
                | some lastIt =>
                    msgfeedTail 2 ((json.idx "data").idx "cursor") arr
                      ((((json.idx "data").idx "cursor").idx "id").asU64)
                      ((lastIt.idx "at_time").asU64) h
  | (some queryid, some last_time, h) =>
      match server (.atPage queryid last_time) with
      | .error e => .done (.err e)
      | .ok json =>
          match ((json.idx "data").idx "items").asArray with
          | none => .done (.panic "called Option::unwrap on a None value")
          | some arr =>
              match arr.getLast? with
              | none => .done (.panic "called Option::unwrap on a None value")
              | some lastIt =>
                  msgfeedTail 2 ((json.idx "data").idx "cursor") arr
                    ((((json.idx "data").idx "cursor").idx "id").asU64)
                    ((lastIt.idx "at_time").asU64) h
  | (_, _, _) => .done (.panic "called Option::unwrap on a None value")

/-- `Notify::fetch_ated_notify`. -/
def fetchAtedNotify (server : FetchServer) (fuel : Nat) : POutcome AList :=
  runLoop (atStep server) (none, none, ([] : AList)) fuel

/-- `for i in notifys.as_array().unwrap()` of the system pager: unwrap each
item's `id` and `type` (panicking on non-u64) and insert
`Notify::new_system_notify(type as u8, api_type)` (`as u8` truncates
mod 256). -/
def insertSysItems (api_type : Nat) : List JVal → AList → POutcome AList
  | [], h => .ok h
  | i :: rest, h =>
      match (i.idx "id").asU64 with
      | none => .panic "called Option::unwrap on a None value"
      | some notify_id =>
          match (i.idx "type").asU64 with
          | none => .panic "called Option::unwrap on a None value"
          | some notify_type =>
              insertSysItems api_type rest
                (insertA notify_id (Notify.new_system_notify (notify_type % 256) api_type) h)

/-- Loop state of the system pager: `(api_type, cursor, h)`. -/
def SysSt : Type := Nat × Option Nat × AList

/-- Tail of the system seed branch once an item list has been chosen:
unwrap it as an array, unwrap its last element, take that element's
`cursor` as the continuation cursor, insert all items, and continue
(`notify.rs:287, 300-305`). -/
def sysSeedTail (api_type : Nat) (notifys : JVal) (h : AList) : StepRes SysSt :=
  match notifys.asArray with
  | none => .done (.panic "called Option::unwrap on a None value")
  | some arr =>
      match arr.getLast? with
      | none => .done (.panic "called Option::unwrap on a None value")
      | some lastIt =>
          match insertSysItems api_type arr h with
          | .ok h2 => .next (api_type, (lastIt.idx "cursor").asU64, h2)
          | out => .done out

/-- One iteration of `fetch_system_notify`'s loop (`notify.rs:264-306`),
with the requests it issued.  With no cursor it seeds from the primary
endpoint, falling back to the secondary one (and switching `api_type` to 1)
when `data.system_notify_list` is null; with a cursor it pages the
continuation endpoint, breaking on an empty `data` array.  A record's tag
is the `api_type` current at insertion time. -/
def sysStep (server : FetchServer) : SysSt → List FetchReq × StepRes SysSt
  | (api_type, none, h) =>
      match server .sysPrimary with
      | .error e => ([.sysPrimary], .done (.err e))
      | .ok json =>
          let notifys := (json.idx "data").idx "system_notify_list"
          if notifys.isNull then
            match server .sysSecondary with
            | .error e => ([.sysPrimary, .sysSecondary], .done (.err e))
            | .ok json2 =>
                let notifys2 := (json2.idx "data").idx "system_notify_list"
                if notifys2.isNull then
                  ([.sysPrimary, .sysSecondary], .done (.err "没有系统通知。"))
                else
                  ([.sysPrimary, .sysSecondary], sysSeedTail 1 notifys2 h)
          else
            ([.sysPrimary], sysSeedTail api_type notifys h)
  | (api_type, some cursor, h) =>
      match server (.sysPage cursor) with
      | .error e => ([.sysPage cursor], .done (.err e))
      | .ok json =>
          match (json.idx "data").asArray with
          | none => ([.sysPage cursor], .done (.panic "called Option::unwrap on a None value"))
          | some arr =>
              if arr.isEmpty then ([.sysPage cursor], .done (.ok h))
              else
                match arr.getLast? with
                | none => ([.sysPage cursor], .done (.panic "called Option::unwrap on a None value"))
                | some lastIt =>
                    match insertSysItems api_type arr h with
                    | .ok h2 => ([.sysPage cursor], .next (api_type, (lastIt.idx "cursor").asU64, h2))
                    | out => ([.sysPage cursor], .done out)

/-- `Notify::fetch_system_notify`: the run's request trace and outcome.
`api_type` starts at 0 (primary). -/
def fetchSystemNotify (server : FetchServer) (fuel : Nat) : List FetchReq × POutcome AList :=
  runLoopTr (sysStep server) (0, none, ([] : AList)) fuel

/-- `tokio::try_join!` over the four pager outcomes, determinized: a panic
in any task aborts the join; otherwise the first `Err` in argument order is
returned (the real scheduler returns whichever error *completes* first —
either way the join yields an error whenever any pager errs, and succeeds
only when all four succeed); an unfinished (diverging) task can still be
outrun by another's error. -/
def tryJoin4 {α : Type} : POutcome α → POutcome α → POutcome α → POutcome α →
    POutcome (α × α × α × α)
  | .ok a, .ok b, .ok c, .ok d => .ok (a, b, c, d)
  | .panic m, _, _, _ => .panic m
  | _, .panic m, _, _ => .panic m
  | _, _, .panic m, _ => .panic m
  | _, _, _, .panic m => .panic m
  | .err e, _, _, _ => .err e
  | _, .err e, _, _ => .err e
  | _, _, .err e, _ => .err e
  | _, _, _, .err e => .err e
  | _, _, _, _ => .diverge

/-- `Notify::fetch` (`notify.rs:99-108`): `try_join!` the four pagers, then
`m1.into_iter().chain(m2).chain(m3).chain(m4).collect()`. -/
def fetchNotify (server : FetchServer) (fuel : Nat) : POutcome AList :=
  match tryJoin4 (fetchLikedNotify server fuel) (fetchAtedNotify server fuel)
      (fetchReplyedNotify server fuel) (fetchSystemNotify server fuel).2 with
  | .ok (m1, m2, m3, m4) => .ok (collectList (((m1 ++ m2) ++ m3) ++ m4))
  | .err e => .err e
  | .panic m => .panic m
  | .diverge => .diverge

/-! ## The deletion worker (spec-modelled) -/

/-- Modelled from the spec: the deletion worker loop is the
`Action::DeleteNotify` handler in `src/main.rs`, which is not among the
sources in scope (only its trigger, `notify_viewer.rs:174-180`, is).
Spec §4.4: the worker processes the selected records strictly
sequentially and checks the cancel signal before each iteration; if set,
it stops without starting a new deletion call.  `cancel k` is the value
the signal is observed to hold before iteration `k`; the result is the
list of records actually dispatched, in order. -/
def deletionWorker {α : Type} (cancel : Nat → Bool) : Nat → List α → List α
  | _, [] => []
  | k, r :: rs => if cancel k then [] else r :: deletionWorker cancel (k + 1) rs

/-- Modelled from the spec: the iteration index (counting from `k`, capped
at the record count) at which the worker first observes the cancel signal
set — the number of deletion calls it dispatches. -/
def stopIndex (cancel : Nat → Bool) : Nat → Nat → Nat
  | _, 0 => 0
  | k, n + 1 => if cancel k then 0 else stopIndex cancel (k + 1) n + 1

/-! ## Sleep-seconds parsing and the viewer update
(`src/screens/main/notify_viewer.rs`) -/

/-- The value of an `f32`, as far as parsing is concerned: NaN, a signed
infinity, or a finite value.  The finite case carries the exact decimal
value of the literal; rounding to binary32 is not modelled — parse
success/failure never depends on it (out-of-range grammatical literals
round to an infinity or zero, still `Ok`). -/
inductive F32M where
  | nan
  | inf (negative : Bool)
  | finite (q : ℚ)
deriving DecidableEq

/-- ASCII lowercasing (for Rust's `eq_ignore_ascii_case`). -/
def asciiLower (c : Char) : Char :=
  if 'A' ≤ c ∧ c ≤ 'Z' then Char.ofNat (c.toNat + 32) else c

/-- Split off the longest prefix of ASCII digits. -/
def takeDigits : List Char → List Char × List Char
  | [] => ([], [])
  | c :: rest =>
      if c.isDigit then
        let p := takeDigits rest
        (c :: p.1, p.2)
      else ([], c :: rest)

/-- Numeric value of a digit string. -/
def digitsToNat (ds : List Char) : Nat :=
  ds.foldl (fun a c => a * 10 + (c.toNat - 48)) 0

/-- The optional exponent part of a float literal: either nothing remains,
or `e`/`E`, an optional sign, and at least one digit consuming the rest of
the input (anything else is a parse failure). -/
def parseExpPart (mant : ℚ) : List Char → Option ℚ
  | [] => some mant
  | c :: rest =>
      if c = 'e' ∨ c = 'E' then
        let sr : Int × List Char :=
          match rest with
          | '+' :: t => (1, t)
          | '-' :: t => (-1, t)
          | t => (1, t)
        let p := takeDigits sr.2
        if p.1.isEmpty then none
        else if p.2.isEmpty then
          some (mant * (10 : ℚ) ^ (sr.1 * (digitsToNat p.1 : Int)))
        else none
      else none

/-- The number form of Rust's float grammar (after the sign): digits, an
optional `.` with more digits — at least one digit in total — then an
optional exponent; the whole input must be consumed. -/
def parseNumber (cs : List Char) : Option ℚ :=
  let p1 := takeDigits cs
  let dr : List Char × List Char :=
    match p1.2 with
    | '.' :: t => takeDigits t
    | r => ([], r)
  if p1.1.length + dr.1.length = 0 then none
  else
    parseExpPart (((digitsToNat (p1.1 ++ dr.1) : Int) : ℚ) / (10 : ℚ) ^ dr.1.length) dr.2

/-- Rust's `str::parse::<f32>` (`core`'s `dec2flt` front end): empty input
fails; an optional `+`/`-` sign, then either a case-insensitive
`inf`/`infinity`/`nan` or a decimal number with optional exponent,
consuming the entire string. -/
def parse_f32 (s : String) : Option F32M :=
  match s.data with
  | [] => none
  | c :: rest0 =>
      let negative := c = '-'
      let rest := if c = '-' ∨ c = '+' then rest0 else c :: rest0
      match rest with
      | [] => none
      | _ =>
          let low := rest.map asciiLower
          if low = ['i', 'n', 'f'] ∨ low = ['i', 'n', 'f', 'i', 'n', 'i', 't', 'y'] then
            some (.inf negative)
          else if low = ['n', 'a', 'n'] then some .nan
          else
            match parseNumber rest with
            | none => none
            | some q => some (.finite (if negative then -q else q))

/-- The asynchronous mutation a `Task` queued by `Action::Run` performs on
the shared notification map (the UI presentation itself is out of scope;
only which mutation is queued is modelled). -/
inductive UiEff where
  | setSelected (id : Nat) (b : Bool)
  | setAllSelected (b : Bool)
  | removeId (id : Nat)
deriving DecidableEq

/-- `ChannelMsg` as used by the viewer. -/
inductive ChannelMsg where
  | stopDeleteComment
deriving DecidableEq

/-- The `Action` values `NotifyViewer::update` returns to the caller
(`main.rs`).  The shared `Arc<Mutex<HashMap<..>>>` handle is modelled by
the map value it guards. -/
inductive Action where
  | none
  | run (eff : UiEff)
  | deleteNotify (notify : AList) (sleep_seconds : F32M)
  | sendtoChannel (msg : ChannelMsg)
  | retryFetchNotify
deriving DecidableEq

/-- `NvMsg` (`notify_viewer.rs:30-41`). -/
inductive NvMsg where
  | secondsInputChanged (v : String)
  | changeNotifyRemoveState (id : Nat) (b : Bool)
  | notifysSelectAll
  | notifysDeselectAll
  | deleteNotify
  | stopDeleteNotify
  | notifyDeleted (id : Nat)
  | allNotifyDeleted
  | notifysFetched (r : Except String AList)
  | retryFetchNotify

/-- `struct NotifyViewer` (`notify_viewer.rs:15-27`). -/
structure NotifyViewer where
  notify : Option AList
  sleep_seconds : String
  is_deleting : Bool
  is_fetching : Bool
  select_state : Bool
  error : Option String
deriving DecidableEq

/-- `NotifyViewer::new`. -/
def NotifyViewer.new : NotifyViewer :=
  { notify := Option.none, sleep_seconds := "3", is_deleting := false,
    is_fetching := true, select_state := false, error := Option.none }

/-- `NotifyViewer::update` (`notify_viewer.rs:135-214`): the new state and
the returned `Action`.  `self.notify.as_ref().unwrap()` on a `None` field
is a panic; on `DeleteNotify` the inter-call delay is
`self.sleep_seconds.parse::<f32>().unwrap_or(0.0)`.  The `Debug`
formatting of the boxed fetch error is approximated by the error string
itself. -/
def NotifyViewer.update (st : NotifyViewer) (msg : NvMsg) :
    POutcome (NotifyViewer × Action) :=
  match msg with
  | .changeNotifyRemoveState id b =>
      match st.notify with
      | Option.none => .panic "called Option::unwrap on a None value"
      | some _ => .ok (st, .run (.setSelected id b))
  | .notifysSelectAll =>
      match st.notify with
      | Option.none => .panic "called Option::unwrap on a None value"
      | some _ => .ok ({ st with select_state := false }, .run (.setAllSelected true))
  | .notifysDeselectAll =>
      match st.notify with
      | Option.none => .panic "called Option::unwrap on a None value"
      | some _ => .ok ({ st with select_state := true }, .run (.setAllSelected false))
  | .deleteNotify =>
      match st.notify with
      | Option.none => .panic "called Option::unwrap on a None value"
      | some m =>
          .ok ({ st with is_deleting := true },
            .deleteNotify m ((parse_f32 st.sleep_seconds).getD (F32M.finite 0)))
  | .notifyDeleted id =>
      match st.notify with
      | Option.none => .panic "called Option::unwrap on a None value"
      | some _ => .ok (st, .run (.removeId id))
  | .secondsInputChanged v => .ok ({ st with sleep_seconds := v }, .none)
  | .stopDeleteNotify => .ok (st, .sendtoChannel .stopDeleteComment)
  | .allNotifyDeleted => .ok ({ st with is_deleting := false }, .none)
  | .notifysFetched (.ok c) =>
      .ok ({ st with is_fetching := false, notify := some c }, .none)
  | .notifysFetched (.error e) =>
      .ok ({ st with is_fetching := false, error := some ("Failed to fetch notify: " ++ e) }, .none)
  | .retryFetchNotify =>
      .ok ({ st with error := Option.none, is_fetching := true }, .retryFetchNotify)

/-! ## Concrete scripted servers used by the witnesses and counterexamples -/

/-- All four feeds answer their seed request with an item container that is
not an array (`items` / `system_notify_list` is the number 5). -/
def srvMalformed : FetchServer := fun r =>
  match r with
  | .likedSeed => .ok (.obj [("data", .obj [("total", .obj [("items", .num 5)])])])
  | .atSeed => .ok (.obj [("data", .obj [("items", .num 5)])])
  | .replySeed => .ok (.obj [("data", .obj [("items", .num 5)])])
  | .sysPrimary => .ok (.obj [("data", .obj [("system_notify_list", .num 5)])])
  | _ => .error "unused"

/-- The three msgfeed seeds answer with empty item arrays; both system
endpoints answer with `system_notify_list` absent. -/
def srvAllEmpty : FetchServer := fun r =>
  match r with
  | .likedSeed => .ok (.obj [("data", .obj [("total", .obj [("items", .arr [])])])])
  | .atSeed => .ok (.obj [("data", .obj [("items", .arr [])])])
  | .replySeed => .ok (.obj [("data", .obj [("items", .arr [])])])
  | .sysPrimary => .ok (.obj [])
  | .sysSecondary => .ok (.obj [])
  | _ => .error "unused"

/-- All four feeds hold exactly the record id 42 (with different category
codes), each finishing after one page; the system feed's continuation page
is empty. -/
def srvFour : FetchServer := fun r =>
  match r with
  | .likedSeed =>
      .ok (.obj [("data", .obj [("total", .obj
        [("items", .arr [.obj [("id", .num 42), ("like_time", .num 100)]]),
         ("cursor", .obj [("id", .num 7), ("is_end", .bool true)])])])])
  | .atSeed =>
      .ok (.obj [("data", .obj
        [("items", .arr [.obj [("id", .num 42), ("at_time", .num 100)]]),
         ("cursor", .obj [("id", .num 7), ("is_end", .bool true)])])])
  | .replySeed =>
      .ok (.obj [("data", .obj
        [("items", .arr [.obj [("id", .num 42), ("reply_time", .num 100)]]),
         ("cursor", .obj [("id", .num 7), ("is_end", .bool true)])])])
  | .sysPrimary =>
      .ok (.obj [("data", .obj [("system_notify_list", .arr
        [.obj [("id", .num 42), ("type", .num 4), ("cursor", .num 9)]])])])
  | .sysPage c => if c = 9 then .ok (.obj [("data", .arr [])]) else .error "unused"
  | _ => .error "unused"

/-- Primary seed has `system_notify_list` absent; the secondary's single
item lacks a `cursor` value, so the loop's cursor stays `None` and the
seed branch runs again. -/
def srvNoCursor : FetchServer := fun r =>
  match r with
  | .sysPrimary => .ok (.obj [])
  | .sysSecondary =>
      .ok (.obj [("data", .obj [("system_notify_list", .arr
        [.obj [("id", .num 1), ("type", .num 1)]])])])
  | _ => .error "unused"

/-- Primary seed has `system_notify_list` absent; the secondary's single
item carries cursor 9; continuation page 9 is empty. -/
def srvFallback : FetchServer := fun r =>
  match r with
  | .sysPrimary => .ok (.obj [])
  | .sysSecondary =>
      .ok (.obj [("data", .obj [("system_notify_list", .arr
        [.obj [("id", .num 1), ("type", .num 1), ("cursor", .num 9)]])])])
  | .sysPage c => if c = 9 then .ok (.obj [("data", .arr [])]) else .error "unused"
  | _ => .error "unused"

/-- The primary system seed answers with a present but empty
`system_notify_list`. -/
def srvSysEmptyList : FetchServer := fun r =>
  match r with
  | .sysPrimary => .ok (.obj [("data", .obj [("system_notify_list", .arr [])])])
  | _ => .error "unused"

/-- A JSON body whose top-level `code` is the integer 0. -/
def codeZeroBody : JVal := .obj [("code", .num 0)]

/-- A cancel signal that is first observed set before iteration 2 (i.e.
after item 2 of the batch completes). -/
def cancelAfterTwo : Nat → Bool := fun k => decide (2 ≤ k)

/-- Well-formed continuation paging: whenever a continuation page's `data`
is a nonempty array, its last element carries a u64 `cursor` (so the
loop's cursor never falls back to `None`, which would re-enter the seed
branch). -/
def goodPages (server : FetchServer) : Prop :=
  ∀ c j arr lastIt, server (.sysPage c) = .ok j →
    (j.idx "data").asArray = some arr → arr.getLast? = some lastIt →
    ∃ c2, (lastIt.idx "cursor").asU64 = some c2

/-! ## Lemmas about the map model -/

theorem lookupA_insertA (k : Nat) (v : Notify) (m : AList) (k' : Nat) :
    lookupA (insertA k v m) k' = if k = k' then some v else lookupA m k' := by
  induction m with
  | nil => by_cases h : k = k' <;> simp [insertA, lookupA, h]
  | cons kv rest ih =>
      obtain ⟨a, b⟩ := kv
      by_cases hak : a = k
      · subst hak
        by_cases hk' : a = k' <;> simp [insertA, lookupA, hk']
      · by_cases hak' : a = k'
        · subst hak'
          have hk : a ≠ k := hak
          have hk2 : k ≠ a := fun hh => hak hh.symm
          simp [insertA, lookupA, hak, hk2]
        · simp [insertA, lookupA, hak, hak', ih]

theorem lookupA_foldl_insert (l : List (Nat × Notify)) (m : AList) (k : Nat) :
    lookupA (l.foldl (fun m kv => insertA kv.1 kv.2 m) m) k =
      oor (lastVal l k) (lookupA m k) := by
  induction l generalizing m with
  | nil => simp [lastVal, oor]
  | cons kv rest ih =>
      simp only [List.foldl_cons]
      rw [ih, lookupA_insertA]
      cases hrest : lastVal rest k with
      | some v => simp [lastVal, hrest, oor]
      | none => by_cases hk : kv.1 = k <;> simp [lastVal, hrest, oor, hk]

theorem lookupA_collectList (l : List (Nat × Notify)) (k : Nat) :
    lookupA (collectList l) k = lastVal l k := by
  rw [collectList, lookupA_foldl_insert]
  cases lastVal l k <;> simp [oor, lookupA]

theorem lastVal_append (l1 l2 : List (Nat × Notify)) (k : Nat) :
    lastVal (l1 ++ l2) k = oor (lastVal l2 k) (lastVal l1 k) := by
  induction l1 with
  | nil => cases h2 : lastVal l2 k <;> simp [lastVal, oor, h2]
  | cons kv rest ih =>
      simp only [List.cons_append, lastVal]
      rw [show rest.append l2 = rest ++ l2 from rfl, ih]
      cases h2 : lastVal l2 k <;> cases h1 : lastVal rest k <;> simp [oor]

/-! ## Claim theorems -/

/-- C6: deletion protocol selection in `Notify::remove` is a pure function
of the record's tag: a primary-system record (`system_notify_api =
Some(0)`) sends a JSON POST whose `ids` array holds the single id and whose
`station_ids` is empty; a secondary-system record (`Some(1)`) sends the id
in `station_ids` with `ids` empty; an untagged (liked/mentioned/replied)
record sends a form-encoded POST carrying its category code, the id and the
credential fields. -/
theorem notify_remove_protocol_selection (tp id : Nat) (csrf : String)
    (server : RemoveReq → HttpResult) :
    (Notify.remove (Notify.new_system_notify tp 0) id csrf server).1 =
      .systemJson
        ("https://message.bilibili.com/x/sys-msg/del_notify_list?build=8140300&mobi_app=android&csrf=" ++ csrf)
        (JVal.obj [("csrf", .str csrf), ("ids", .arr [.num id]), ("station_ids", .arr []),
                   ("type", .num tp), ("build", .num 8140300), ("mobi_app", .str "android")]) ∧
    (Notify.remove (Notify.new_system_notify tp 1) id csrf server).1 =
      .systemJson
        ("https://message.bilibili.com/x/sys-msg/del_notify_list?build=8140300&mobi_app=android&csrf=" ++ csrf)
        (JVal.obj [("csrf", .str csrf), ("ids", .arr []), ("station_ids", .arr [.num id]),
                   ("type", .num tp), ("build", .num 8140300), ("mobi_app", .str "android")]) ∧
    (Notify.remove (Notify.new tp) id csrf server).1 =
      .formPost "\n    https://api.bilibili.com/x/msgfeed/del"
        [("tp", toString tp), ("id", toString id), ("build", toString 0),
         ("mobi_app", "web"), ("csrf_token", csrf), ("csrf", csrf)] :=
  ⟨rfl, rfl, rfl⟩

/-- C1 (code bug witness): on a system-tagged record, a well-formed
transport response whose JSON body lacks an integer `code` field makes
`Notify::remove` panic (the `unwrap` at `notify.rs:52`) instead of
returning the error value the spec promises; the generic branch handles
the same situation with `ok_or` (`notify.rs:85`). -/
theorem notify_remove_missing_code_panics :
    (Notify.remove (Notify.new_system_notify 1 0) 7 "c"
        (fun _ => .response true (some (JVal.obj [])))).2 =
      .panic "called Option::unwrap on a None value" := rfl

/-- C4: a successful `Notify::fetch` merges the four per-feed maps in the
fixed order liked, mentioned, replied, system; on id collision the later
feed's record overwrites the earlier one, so the merged binding of any key
is the system feed's if present, else replied's, else mentioned's, else
liked's. -/
theorem notify_fetch_merge_order (server : FetchServer) (fuel : Nat) (m1 m2 m3 m4 : AList)
    (h1 : fetchLikedNotify server fuel = .ok m1)
    (h2 : fetchAtedNotify server fuel = .ok m2)
    (h3 : fetchReplyedNotify server fuel = .ok m3)
    (h4 : (fetchSystemNotify server fuel).2 = .ok m4) :
    fetchNotify server fuel = .ok (collectList (((m1 ++ m2) ++ m3) ++ m4)) ∧
    ∀ k, lookupA (collectList (((m1 ++ m2) ++ m3) ++ m4)) k =
      oor (lastVal m4 k) (oor (lastVal m3 k) (oor (lastVal m2 k) (lastVal m1 k))) := by
  constructor
  · unfold fetchNotify
    rw [h1, h2, h3, h4]
    rfl
  · intro k
    rw [lookupA_collectList, lastVal_append, lastVal_append, lastVal_append]

/-- C4 witness: with all four feeds holding a record with id 42 (of
different category codes), the merged collection binds 42 to the system
feed's record. -/
theorem notify_fetch_merge_order_witness :
    fetchNotify srvFour 2 =
      .ok (collectList ((([(42, Notify.new 0)] ++ [(42, Notify.new 2)]) ++
        [(42, Notify.new 1)]) ++ [(42, Notify.new_system_notify 4 0)])) ∧
    lookupA (collectList ((([(42, Notify.new 0)] ++ [(42, Notify.new 2)]) ++
        [(42, Notify.new 1)]) ++ [(42, Notify.new_system_notify 4 0)])) 42 =
      some (Notify.new_system_notify 4 0) := by
  have h := notify_fetch_merge_order srvFour 2 [(42, Notify.new 0)] [(42, Notify.new 2)]
    [(42, Notify.new 1)] [(42, Notify.new_system_notify 4 0)] rfl rfl rfl rfl
  exact ⟨h.1, by rw [h.2 42]; rfl⟩

/-- C3: `Notify::fetch` is all-or-nothing: it returns `Ok` only when all
four pagers return `Ok`, and whenever any pager returns an error (the
`EmptyFeed` strings included) while the others at least do not panic, the
whole aggregation returns an error — no partial collection. -/
theorem notify_fetch_all_or_nothing (server : FetchServer) (fuel : Nat) :
    (∀ M, fetchNotify server fuel = .ok M →
      (fetchLikedNotify server fuel).isOk = true ∧
      (fetchAtedNotify server fuel).isOk = true ∧
      (fetchReplyedNotify server fuel).isOk = true ∧
      ((fetchSystemNotify server fuel).2).isOk = true) ∧
    ((fetchLikedNotify server fuel).isPanic = false →
     (fetchAtedNotify server fuel).isPanic = false →
     (fetchReplyedNotify server fuel).isPanic = false →
     ((fetchSystemNotify server fuel).2).isPanic = false →
     ((fetchLikedNotify server fuel).isErr || (fetchAtedNotify server fuel).isErr ||
      (fetchReplyedNotify server fuel).isErr ||
      ((fetchSystemNotify server fuel).2).isErr) = true →
     (fetchNotify server fuel).isErr = true) := by
  unfold fetchNotify
  cases h1 : fetchLikedNotify server fuel <;>
    cases h2 : fetchAtedNotify server fuel <;>
      cases h3 : fetchReplyedNotify server fuel <;>
        cases h4 : (fetchSystemNotify server fuel).2 <;>
          simp [tryJoin4, POutcome.isOk, POutcome.isErr, POutcome.isPanic]

/-- C3 witness: with all three msgfeed seeds empty and both system lists
absent, each pager errs (no panic) and `fetch` errs. -/
theorem notify_fetch_all_or_nothing_witness :
    (fetchNotify srvAllEmpty 1).isErr = true :=
  (notify_fetch_all_or_nothing srvAllEmpty 1).2 rfl rfl rfl rfl rfl

/-- C2 counterexample: when the liked seed response's `data.total.items` is
present but not an array, `fetch_liked_notify` panics (the `as_array`
`unwrap`, `notify.rs:126`) instead of returning a typed `ParseError`
result. -/
theorem fetch_liked_malformed_items_panics_cex :
    fetchLikedNotify srvMalformed 1 = .panic "called Option::unwrap on a None value" := rfl

/-- C2 (amended): on a fetch-phase response of unexpected shape the pagers
abort with a panic, not a typed error: for each of the four pagers, a seed
response whose item container is not an array (for the system feed: not
null and not an array) makes the run panic. -/
theorem fetch_pagers_panic_on_malformed_fields (server : FetchServer) (fuel : Nat) :
    (∀ j, server .likedSeed = .ok j →
      (((j.idx "data").idx "total").idx "items").asArray = none →
      fetchLikedNotify server (fuel + 1) = .panic "called Option::unwrap on a None value") ∧
    (∀ j, server .atSeed = .ok j →
      ((j.idx "data").idx "items").asArray = none →
      fetchAtedNotify server (fuel + 1) = .panic "called Option::unwrap on a None value") ∧
    (∀ j, server .replySeed = .ok j →
      ((j.idx "data").idx "items").asArray = none →
      fetchReplyedNotify server (fuel + 1) = .panic "called Option::unwrap on a None value") ∧
    (∀ j, server .sysPrimary = .ok j →
      ((j.idx "data").idx "system_notify_list").isNull = false →
      ((j.idx "data").idx "system_notify_list").asArray = none →
      (fetchSystemNotify server (fuel + 1)).2 = .panic "called Option::unwrap on a None value") := by
  refine ⟨fun j hs hm => ?_, fun j hs hm => ?_, fun j hs hm => ?_, fun j hs hn hm => ?_⟩
  · simp [fetchLikedNotify, runLoop, likedStep, hs, hm]
  · simp [fetchAtedNotify, runLoop, atStep, hs, hm]
  · simp [fetchReplyedNotify, runLoop, replyStep, hs, hm]
  · simp [fetchSystemNotify, runLoopTr, sysStep, sysSeedTail, hs, hn, hm]

/-- C2 witness: the amended behaviour at a concrete script whose item
containers are the number 5. -/
theorem fetch_pagers_panic_on_malformed_fields_witness :
    fetchAtedNotify srvMalformed 1 = .panic "called Option::unwrap on a None value" ∧
    fetchReplyedNotify srvMalformed 1 = .panic "called Option::unwrap on a None value" ∧
    (fetchSystemNotify srvMalformed 1).2 = .panic "called Option::unwrap on a None value" := by
  have h := fetch_pagers_panic_on_malformed_fields srvMalformed 0
  exact ⟨h.2.1 _ rfl rfl, h.2.2.1 _ rfl rfl, h.2.2.2 _ rfl rfl rfl⟩

/-- A value that `as_array` accepts is not null. -/
theorem isNull_eq_false_of_asArray {v : JVal} {xs : List JVal}
    (h : v.asArray = some xs) : v.isNull = false := by
  cases v <;> simp [JVal.asArray, JVal.isNull] at *

/-- C8 counterexample: a primary system seed whose `system_notify_list` is
present but empty makes `fetch_system_notify` panic (`last().unwrap()`,
`notify.rs:287`) — not return an `EmptyFeed` error. -/
theorem fetch_system_empty_seed_panics_cex :
    (fetchSystemNotify srvSysEmptyList 1).2 =
      .panic "called Option::unwrap on a None value" := rfl

/-- C8 (amended): for the liked, mentioned and replied feeds a seed page
whose item array is present but empty yields the `EmptyFeed` error, never
a successful empty collection; the system pager instead panics on a
present-but-empty seed list, and its `EmptyFeed` error arises only when
both endpoints' lists are absent. -/
theorem empty_seed_feed_amended (server : FetchServer) (fuel : Nat) :
    (∀ j, server .likedSeed = .ok j →
      (((j.idx "data").idx "total").idx "items").asArray = some [] →
      fetchLikedNotify server (fuel + 1) = .err "没有收到赞的通知。") ∧
    (∀ j, server .atSeed = .ok j →
      ((j.idx "data").idx "items").asArray = some [] →
      fetchAtedNotify server (fuel + 1) = .err "没有被At的通知。") ∧
    (∀ j, server .replySeed = .ok j →
      ((j.idx "data").idx "items").asArray = some [] →
      fetchReplyedNotify server (fuel + 1) = .err "没有收到评论的通知。") ∧
    (∀ jp js, server .sysPrimary = .ok jp →
      ((jp.idx "data").idx "system_notify_list").isNull = true →
      server .sysSecondary = .ok js →
      ((js.idx "data").idx "system_notify_list").isNull = true →
      (fetchSystemNotify server (fuel + 1)).2 = .err "没有系统通知。") ∧
    (∀ jp, server .sysPrimary = .ok jp →
      ((jp.idx "data").idx "system_notify_list").asArray = some [] →
      (fetchSystemNotify server (fuel + 1)).2 =
        .panic "called Option::unwrap on a None value") := by
  refine ⟨fun j hs hm => ?_, fun j hs hm => ?_, fun j hs hm => ?_,
    fun jp js hp hn hs hn2 => ?_, fun jp hp hm => ?_⟩
  · simp [fetchLikedNotify, runLoop, likedStep, hs, hm]
  · simp [fetchAtedNotify, runLoop, atStep, hs, hm]
  · simp [fetchReplyedNotify, runLoop, replyStep, hs, hm]
  · simp [fetchSystemNotify, runLoopTr, sysStep, hp, hn, hs, hn2]
  · simp [fetchSystemNotify, runLoopTr, sysStep, sysSeedTail, hp, hm,
      isNull_eq_false_of_asArray hm]

/-- C8 witness: the amended behaviour at concrete scripts (empty arrays on
the three msgfeed seeds, absent lists on both system endpoints, and a
present-but-empty system list). -/
theorem empty_seed_feed_amended_witness :
    fetchLikedNotify srvAllEmpty 1 = .err "没有收到赞的通知。" ∧
    fetchAtedNotify srvAllEmpty 1 = .err "没有被At的通知。" ∧
    fetchReplyedNotify srvAllEmpty 1 = .err "没有收到评论的通知。" ∧
    (fetchSystemNotify srvAllEmpty 1).2 = .err "没有系统通知。" ∧
    (fetchSystemNotify srvSysEmptyList 1).2 =
      .panic "called Option::unwrap on a None value" := by
  have h := empty_seed_feed_amended srvAllEmpty 0
  have h2 := empty_seed_feed_amended srvSysEmptyList 0
  exact ⟨h.1 _ rfl rfl, h.2.1 _ rfl rfl, h.2.2.1 _ rfl rfl,
    h.2.2.2.1 _ _ rfl rfl rfl rfl, h2.2.2.2.2 _ rfl rfl⟩

/-- An element of `insertA k v m` is either the inserted pair or one of
`m`'s. -/
theorem mem_insertA {kv : Nat × Notify} {k : Nat} {v : Notify} {m : AList}
    (h : kv ∈ insertA k v m) : kv = (k, v) ∨ kv ∈ m := by
  induction m with
  | nil => simpa [insertA] using h
  | cons kv2 rest ih =>
      obtain ⟨a, b⟩ := kv2
      by_cases hak : a = k
      · subst hak
        simp only [insertA, if_pos rfl] at h
        rcases List.mem_cons.mp h with h | h
        · exact Or.inl h
        · exact Or.inr (List.mem_cons_of_mem _ h)
      · simp only [insertA, if_neg hak] at h
        rcases List.mem_cons.mp h with h | h
        · exact Or.inr (h ▸ List.mem_cons_self _ _)
        · rcases ih h with h | h
          · exact Or.inl h
          · exact Or.inr (List.mem_cons_of_mem _ h)

/-- The system insert loop only adds records tagged with the current
`api_type`. -/
theorem insertSysItems_api (api : Nat) :
    ∀ (items : List JVal) (h h2 : AList),
      insertSysItems api items h = .ok h2 →
      (∀ kv ∈ h, kv.2.system_notify_api = some api) →
      ∀ kv ∈ h2, kv.2.system_notify_api = some api := by
  intro items
  induction items with
  | nil =>
      intro h h2 heq hinv
      simp only [insertSysItems, POutcome.ok.injEq] at heq
      exact heq ▸ hinv
  | cons i rest ih =>
      intro h h2 heq hinv
      simp only [insertSysItems] at heq
      cases hid : (i.idx "id").asU64 with
      | none => rw [hid] at heq; simp at heq
      | some nid =>
          rw [hid] at heq
          cases hty : (i.idx "type").asU64 with
          | none => rw [hty] at heq; simp at heq
          | some t =>
              rw [hty] at heq
              refine ih _ _ heq (fun kv hkv => ?_)
              rcases mem_insertA hkv with h' | h'
              · rw [h']
                simp [Notify.new_system_notify]
              · exact hinv kv h'

/-- Once the system pager is in its continuation phase with a cursor in
hand, a `goodPages` server keeps it there: every further request is a
`sysPage`, and a successful outcome only holds records tagged with the
phase's `api_type`. -/
theorem sysLoop_cont_invariant (server : FetchServer) (hgood : goodPages server) :
    ∀ (fuel api c : Nat) (h : AList),
      (∀ kv ∈ h, kv.2.system_notify_api = some api) →
      (∀ r ∈ (runLoopTr (sysStep server) (api, some c, h) fuel).1, ∃ c2, r = .sysPage c2) ∧
      (∀ m, (runLoopTr (sysStep server) (api, some c, h) fuel).2 = .ok m →
        ∀ kv ∈ m, kv.2.system_notify_api = some api) := by
  intro fuel
  induction fuel with
  | zero =>
      intro api c h hinv
      exact ⟨by simp [runLoopTr], by simp [runLoopTr]⟩
  | succ fuel ih =>
      intro api c h hinv
      cases hsv : server (.sysPage c) with
      | error e =>
          refine ⟨fun r hr => ?_, fun m hm => ?_⟩
          · simp [runLoopTr, sysStep, hsv] at hr
            exact ⟨c, hr⟩
          · simp [runLoopTr, sysStep, hsv] at hm
      | ok json =>
          cases harr : (json.idx "data").asArray with
          | none =>
              refine ⟨fun r hr => ?_, fun m hm => ?_⟩
              · simp [runLoopTr, sysStep, hsv, harr] at hr
                exact ⟨c, hr⟩
              · simp [runLoopTr, sysStep, hsv, harr] at hm
          | some arr =>
              by_cases hemp : arr.isEmpty
              · refine ⟨fun r hr => ?_, fun m hm => ?_⟩
                · simp [runLoopTr, sysStep, hsv, harr, hemp] at hr
                  exact ⟨c, hr⟩
                · simp [runLoopTr, sysStep, hsv, harr, hemp] at hm
                  exact hm ▸ hinv
              · cases hlast : arr.getLast? with
                | none =>
                    refine ⟨fun r hr => ?_, fun m hm => ?_⟩
                    · simp [runLoopTr, sysStep, hsv, harr, hemp, hlast] at hr
                      exact ⟨c, hr⟩
                    · simp [runLoopTr, sysStep, hsv, harr, hemp, hlast] at hm
                | some lastIt =>
                    obtain ⟨c2, hc2⟩ := hgood c json arr lastIt hsv harr hlast
                    cases hins : insertSysItems api arr h with
                    | ok h0 =>
                        have hinv0 := insertSysItems_api api arr h h0 hins hinv
                        have hrec := ih api c2 h0 hinv0
                        refine ⟨fun r hr => ?_, fun m hm => ?_⟩
                        · simp [runLoopTr, sysStep, hsv, harr, hemp, hlast, hc2, hins] at hr
                          rcases hr with hr | hr
                          · exact ⟨c, hr⟩
                          · exact hrec.1 r hr
                        · simp [runLoopTr, sysStep, hsv, harr, hemp, hlast, hc2, hins] at hm
                          exact hrec.2 m hm
                    | err e =>
                        refine ⟨fun r hr => ?_, fun m hm => ?_⟩
                        · simp [runLoopTr, sysStep, hsv, harr, hemp, hlast, hc2, hins] at hr
                          exact ⟨c, hr⟩
                        · simp [runLoopTr, sysStep, hsv, harr, hemp, hlast, hc2, hins] at hm
                    | panic msg =>
                        refine ⟨fun r hr => ?_, fun m hm => ?_⟩
                        · simp [runLoopTr, sysStep, hsv, harr, hemp, hlast, hc2, hins] at hr
                          exact ⟨c, hr⟩
                        · simp [runLoopTr, sysStep, hsv, harr, hemp, hlast, hc2, hins] at hm
                    | diverge =>
                        refine ⟨fun r hr => ?_, fun m hm => ?_⟩
                        · simp [runLoopTr, sysStep, hsv, harr, hemp, hlast, hc2, hins] at hr
                          exact ⟨c, hr⟩
                        · simp [runLoopTr, sysStep, hsv, harr, hemp, hlast, hc2, hins] at hm

/-- C5 counterexample: with the primary list absent and a secondary whose
single item lacks a `cursor` value, the loop's cursor stays `None`, the
seed branch re-runs, and the secondary endpoint is called twice before any
continuation call — refuting "called exactly once" and "the decision is
made only once, at the seed step". -/
theorem fetch_system_secondary_called_twice_cex :
    (fetchSystemNotify srvNoCursor 2).1 =
      [.sysPrimary, .sysSecondary, .sysPrimary, .sysSecondary] := rfl

/-- C5 (amended): if the primary seed's `system_notify_list` is absent and
the secondary's is also absent, the pager fails after calling primary then
secondary once; if the secondary's list is a present array whose last item
carries a u64 `cursor` — and every continuation page does too
(`goodPages`) — then the secondary is called exactly once, before any
continuation call (the trace is primary, secondary, then only continuation
pages), and every record of a successful run is tagged with the secondary
protocol (`api_type = 1`). -/
theorem fetch_system_fallback_amended (server : FetchServer) (fuel : Nat) :
    (∀ jp js, server .sysPrimary = .ok jp →
      ((jp.idx "data").idx "system_notify_list").isNull = true →
      server .sysSecondary = .ok js →
      ((js.idx "data").idx "system_notify_list").isNull = true →
      fetchSystemNotify server (fuel + 1) =
        ([.sysPrimary, .sysSecondary], .err "没有系统通知。")) ∧
    (∀ jp js arr lastIt c0, goodPages server →
      server .sysPrimary = .ok jp →
      ((jp.idx "data").idx "system_notify_list").isNull = true →
      server .sysSecondary = .ok js →
      ((js.idx "data").idx "system_notify_list").asArray = some arr →
      arr.getLast? = some lastIt →
      (lastIt.idx "cursor").asU64 = some c0 →
      ∃ rest, (fetchSystemNotify server (fuel + 1)).1 = .sysPrimary :: .sysSecondary :: rest ∧
        (∀ r ∈ rest, ∃ c2, r = .sysPage c2) ∧
        (∀ m, (fetchSystemNotify server (fuel + 1)).2 = .ok m →
          ∀ kv ∈ m, kv.2.system_notify_api = some 1)) := by
  constructor
  · intro jp js hp hn hs hn2
    simp [fetchSystemNotify, runLoopTr, sysStep, hp, hn, hs, hn2]
  · intro jp js arr lastIt c0 hgood hp hn hs harr hlast hc0
    have hnn2 := isNull_eq_false_of_asArray harr
    cases hins : insertSysItems 1 arr [] with
    | ok h0 =>
        have hinv0 := insertSysItems_api 1 arr [] h0 hins (by intro kv hkv; simp at hkv)
        have hrec := sysLoop_cont_invariant server hgood fuel 1 c0 h0 hinv0
        refine ⟨(runLoopTr (sysStep server) (1, some c0, h0) fuel).1, ?_, hrec.1, fun m hm => ?_⟩
        · simp [fetchSystemNotify, runLoopTr, sysStep, sysSeedTail, hp, hn, hs, hnn2,
            harr, hlast, hc0, hins]
        · refine hrec.2 m ?_
          simpa [fetchSystemNotify, runLoopTr, sysStep, sysSeedTail, hp, hn, hs, hnn2,
            harr, hlast, hc0, hins] using hm
    | err e =>
        refine ⟨[], ?_, by simp, fun m hm => ?_⟩
        · simp [fetchSystemNotify, runLoopTr, sysStep, sysSeedTail, hp, hn, hs, hnn2,
            harr, hlast, hins]
        · exfalso
          simp [fetchSystemNotify, runLoopTr, sysStep, sysSeedTail, hp, hn, hs, hnn2,
            harr, hlast, hins] at hm
    | panic msg =>
        refine ⟨[], ?_, by simp, fun m hm => ?_⟩
        · simp [fetchSystemNotify, runLoopTr, sysStep, sysSeedTail, hp, hn, hs, hnn2,
            harr, hlast, hins]
        · exfalso
          simp [fetchSystemNotify, runLoopTr, sysStep, sysSeedTail, hp, hn, hs, hnn2,
            harr, hlast, hins] at hm
    | diverge =>
        refine ⟨[], ?_, by simp, fun m hm => ?_⟩
        · simp [fetchSystemNotify, runLoopTr, sysStep, sysSeedTail, hp, hn, hs, hnn2,
            harr, hlast, hins]
        · exfalso
          simp [fetchSystemNotify, runLoopTr, sysStep, sysSeedTail, hp, hn, hs, hnn2,
            harr, hlast, hins] at hm

/-- C5 witness: both conjuncts of the amended claim at concrete scripts —
the both-absent failure, and a fallback run whose one record is tagged with
the secondary protocol. -/
theorem fetch_system_fallback_amended_witness :
    fetchSystemNotify srvAllEmpty 1 = ([.sysPrimary, .sysSecondary], .err "没有系统通知。") ∧
    ((1, Notify.new_system_notify 1 1) : Nat × Notify).2.system_notify_api = some 1 := by
  have h := fetch_system_fallback_amended srvAllEmpty 0
  have h2 := fetch_system_fallback_amended srvFallback 1
  refine ⟨h.1 _ _ rfl rfl rfl rfl, ?_⟩
  have hg : goodPages srvFallback := by
    intro c j arr lastIt hsv harr hlast
    by_cases hc : c = 9
    · subst hc
      simp [srvFallback] at hsv
      subst hsv
      simp [JVal.idx, JVal.lookupField, JVal.asArray] at harr
      subst harr
      simp at hlast
    · simp [srvFallback, hc] at hsv
  obtain ⟨rest, htr, hpg, hok⟩ := h2.2 _ _ _ _ _ hg rfl rfl rfl rfl rfl rfl
  exact hok [(1, Notify.new_system_notify 1 1)] rfl (1, Notify.new_system_notify 1 1) (by simp)

/-- C7 counterexample: the system branch of `Notify::remove` never calls
`error_for_status`, so a non-2xx response whose JSON body has `code = 0`
still *succeeds* — refuting "any non-2xx transport response yields a
failure result". -/
theorem notify_remove_system_ignores_status_cex :
    (Notify.remove (Notify.new_system_notify 1 0) 5 "x"
        (fun _ => .response false (some codeZeroBody))).2 = .ok 5 := rfl

/-- C7 (amended): in the generic form branch, the call succeeds — with
exactly the id passed in — iff the response is 2xx and its JSON body's
integer `code` is 0; in the system branches the HTTP status is never
checked, and success holds iff the body's integer `code` is 0; a
`send()`-level transport failure is an error in every branch, and `Ok`
always carries the id that was passed in. -/
theorem notify_remove_success_criterion_amended (tp a id : Nat) (csrf : String) :
    (∀ (b2 : Bool) (j : JVal),
      (Notify.remove (Notify.new tp) id csrf (fun _ => .response b2 (some j))).2 = .ok id ↔
        b2 = true ∧ (j.idx "code").asI64 = some 0) ∧
    (∀ (b2 : Bool) (j : JVal),
      (Notify.remove (Notify.new_system_notify tp a) id csrf
          (fun _ => .response b2 (some j))).2 = .ok id ↔
        (j.idx "code").asI64 = some 0) ∧
    (∀ e, (Notify.remove (Notify.new tp) id csrf (fun _ => .sendErr e)).2 = .err e) ∧
    (∀ e, (Notify.remove (Notify.new_system_notify tp a) id csrf
        (fun _ => .sendErr e)).2 = .err e) ∧
    (∀ (server : RemoveReq → HttpResult) (r : Nat),
      ((Notify.remove (Notify.new tp) id csrf server).2 = .ok r → r = id) ∧
      ((Notify.remove (Notify.new_system_notify tp a) id csrf server).2 = .ok r → r = id)) := by
  refine ⟨fun b2 j => ?_, fun b2 j => ?_, fun e => rfl, fun e => rfl,
    fun server r => ⟨fun h => ?_, fun h => ?_⟩⟩
  · cases b2
    · simp [Notify.remove, Notify.new]
    · cases hc : (j.idx "code").asI64 with
      | none => simp [Notify.remove, Notify.new, hc]
      | some c => by_cases h0 : c = 0 <;> simp [Notify.remove, Notify.new, hc, h0]
  · cases hc : (j.idx "code").asI64 with
    | none => simp [Notify.remove, Notify.new_system_notify, hc]
    | some c =>
        by_cases h0 : c = 0 <;> simp [Notify.remove, Notify.new_system_notify, hc, h0]
  · simp only [Notify.remove, Notify.new] at h
    cases hres : server (removeRequest
        { tp := tp, is_selected := false, system_notify_api := none } id csrf) with
    | sendErr e => rw [hres] at h; simp at h
    | response ok2xx body =>
        rw [hres] at h
        cases ok2xx
        · simp at h
        · cases body with
          | none => simp at h
          | some j =>
              cases hc : (j.idx "code").asI64 with
              | none => simp [hc] at h
              | some c =>
                  by_cases h0 : c = 0
                  · simp [hc, h0] at h
                    omega
                  · simp [hc, h0] at h
  · simp only [Notify.remove, Notify.new_system_notify] at h
    cases hres : server (removeRequest
        { tp := tp, is_selected := false, system_notify_api := some a } id csrf) with
    | sendErr e => rw [hres] at h; simp at h
    | response ok2xx body =>
        rw [hres] at h
        cases body with
        | none => simp at h
        | some j =>
            cases hc : (j.idx "code").asI64 with
            | none => simp [hc] at h
            | some c =>
                by_cases h0 : c = 0
                · simp [hc, h0] at h
                  omega
                · simp [hc, h0] at h

/-- C7 witness: a 2xx response with `code = 0` makes the generic branch
succeed with the id passed in. -/
theorem notify_remove_success_criterion_amended_witness :
    (Notify.remove (Notify.new 0) 5 "x"
        (fun _ => .response true (some codeZeroBody))).2 = .ok 5 :=
  ((notify_remove_success_criterion_amended 0 0 5 "x").1 true codeZeroBody).mpr ⟨rfl, rfl⟩

/-- The worker dispatches exactly the prefix of records before the first
iteration whose cancel check fires. -/
theorem deletionWorker_eq_take {α : Type} (cancel : Nat → Bool) :
    ∀ (rs : List α) (k : Nat),
      deletionWorker cancel k rs = rs.take (stopIndex cancel k rs.length) := by
  intro rs
  induction rs with
  | nil => intro k; simp [deletionWorker, stopIndex]
  | cons r rest ih =>
      intro k
      by_cases hck : cancel k <;> simp [deletionWorker, stopIndex, hck, ih]

/-- If the signal is set from index `j` on, at most `j - k` records are
dispatched starting from iteration `k`. -/
theorem deletionWorker_length_le {α : Type} (cancel : Nat → Bool) (j : Nat)
    (hj : ∀ i, j ≤ i → cancel i = true) :
    ∀ (rs : List α) (k : Nat), (deletionWorker cancel k rs).length ≤ j - k := by
  intro rs
  induction rs with
  | nil => intro k; simp [deletionWorker]
  | cons r rest ih =>
      intro k
      by_cases hck : cancel k = true
      · simp [deletionWorker, hck]
      · have hkj : k < j := by
          by_contra hh
          push_neg at hh
          exact hck (hj k hh)
        simp only [deletionWorker, hck, if_false, Bool.false_eq_true, List.length_cons]
        have := ih (k + 1)
        omega

/-- C9 (spec-modelled): the deletion worker checks the cancel signal
before each iteration; the dispatched calls are exactly the prefix of the
records up to the first set check, and once the (monotone) signal is set
at index `j`, no more than `j` calls are ever dispatched — so cancelling
after item 2 means items 3.. are never dispatched. -/
theorem deletion_worker_cancellation {α : Type} (cancel : Nat → Bool) (rs : List α)
    (hmono : ∀ j, cancel j = true → cancel (j + 1) = true) :
    deletionWorker cancel 0 rs = rs.take (stopIndex cancel 0 rs.length) ∧
    ∀ j, cancel j = true → (deletionWorker cancel 0 rs).length ≤ j := by
  refine ⟨deletionWorker_eq_take cancel rs 0, fun j hj => ?_⟩
  have hge : ∀ i, j ≤ i → cancel i = true := by
    intro i hi
    induction i, hi using Nat.le_induction with
    | base => exact hj
    | succ i hi ih => exact hmono i ih
  have := deletionWorker_length_le cancel j hge rs 0
  omega

/-- C9 witness: cancelling after item 2 of 5 yields exactly the first two
dispatches; items 3–5 are never dispatched. -/
theorem deletion_worker_cancellation_witness :
    deletionWorker cancelAfterTwo 0 [10, 20, 30, 40, 50] = [10, 20] ∧
    (deletionWorker cancelAfterTwo 0 [10, 20, 30, 40, 50]).length ≤ 2 := by
  have h := deletion_worker_cancellation cancelAfterTwo [10, 20, 30, 40, 50]
    (fun j hj => by simp [cancelAfterTwo] at hj ⊢; omega)
  exact ⟨by rw [h.1]; rfl, h.2 2 (by simp [cancelAfterTwo])⟩

/-- C10: on the `DeleteNotify` message, the inter-call delay handed to the
deletion worker is the sleep-seconds input parsed as an `f32`; any string
that does not parse (the empty string included) falls back to a delay of
0.0 via `unwrap_or(0.0)` — the input is not rejected. -/
theorem delete_notify_sleep_default (st : NotifyViewer) (m : AList)
    (hn : st.notify = some m) (hp : parse_f32 st.sleep_seconds = none) :
    NotifyViewer.update st .deleteNotify =
      .ok ({ st with is_deleting := true }, .deleteNotify m (F32M.finite 0)) := by
  simp [NotifyViewer.update, hn, hp, Option.getD]

/-- C10 witness: with the sleep-seconds input empty (which does not parse
as a float), triggering deletion starts the worker with delay 0.0. -/
theorem delete_notify_sleep_default_witness :
    NotifyViewer.update
        { notify := some [], sleep_seconds := "", is_deleting := false,
          is_fetching := false, select_state := false, error := Option.none }
        .deleteNotify =
      .ok ({ notify := some [], sleep_seconds := "", is_deleting := true,
             is_fetching := false, select_state := false, error := Option.none },
        .deleteNotify [] (F32M.finite 0)) :=
  delete_notify_sleep_default
    { notify := some [], sleep_seconds := "", is_deleting := false,
      is_fetching := false, select_state := false, error := Option.none } [] rfl rfl

end BiliClean
